import Mathlib

/-!
# Verification of the Wechaty core against its specification

This file gives a shallow embedding of the Wechaty chatbot SDK core
(`src/wechaty.ts` and `src/user-modules/moment.ts`) in Lean 4 and settles a
list of claims about it.

The embedding follows the TypeScript source:

* The Moment/Post composer (`MomentMixin.generateMomentPayload` and
  `MomentMixin.post`) becomes a pure function over a tagged union of Sayable
  payloads; thrown JavaScript exceptions become `Except.error`.
* The puppet event bridge handlers of `Wechaty.initPuppetEventBridge` become
  functions producing an ordered trace of the actions they perform (entity
  loads, hydrations, event emissions, payload-dirty backend calls), plus a
  flag recording whether the async handler's promise rejected.
* The lifecycle methods `Wechaty.start`/`Wechaty.stop` become functions on a
  finite record of the instance fields they read and write, parameterised by
  an environment saying which awaited sub-operations fail; a thrown
  exception (a rejected returned promise) is `Except.error`.
* `Wechaty.instance`, `Wechaty.use` and `Wechaty.logonoff` become small pure
  functions over explicit state.

Opaque JavaScript values (FileBox, UrlLink payloads, plugin closures) are
represented by `Nat` tokens; backend ids by `String`.
-/

namespace Wechaty

/-! ## Moment composer (`src/user-modules/moment.ts`)

`MomentMixin.generateMomentPayload` walks `post.payload.sayableList` with a
`switch` on the item type, mutating four local materials; we embed the loop
as structural recursion on the list with the four locals as an accumulator.
-/

/-- A `SayablePayload` item as consumed by `generateMomentPayload`'s
`switch (item.type)`: the recognised kinds `Text`, `Video`, `Image`, `Url`,
and `other k` standing for every remaining `type.Message` value (which hits
the `default:` branch).  File and url-link payloads are opaque tokens. -/
inductive SayablePayloadM where
  | text  (s : String)
  | video (f : Nat)
  | image (f : Nat)
  | url   (u : Nat)
  | other (k : Nat)
  deriving DecidableEq, Repr

/-- The `PUPPET.payload.Moment` structure assembled at the end of
`generateMomentPayload`: `undefined` optionals become `none`. -/
structure MomentPayloadM where
  textMaterial      : Option String
  imageMaterialList : List Nat
  videoMaterial     : Option Nat
  urlMaterial       : Option Nat
  deriving DecidableEq, Repr

/-- The error message of the `default:` branch of the `switch` in
`generateMomentPayload`. -/
def momentErrMsg : String :=
  "Can not convert sayable to moment material when create moment payload"

/-- The `for (const sayable of sayableList)` loop of
`generateMomentPayload`, with the four mutable locals (`textMaterial`,
`videoMaterial`, `urlMaterial`, `imageMaterialList`) carried as the
accumulator `acc`.  `Text`/`Video`/`Url` overwrite their material,
`Image` is pushed onto the image list, anything else throws. -/
def genLoop (acc : MomentPayloadM) : List SayablePayloadM → Except String MomentPayloadM
  | [] => .ok acc
  | s :: rest =>
    match s with
    | .text t  => genLoop { acc with textMaterial := some t } rest
    | .video f => genLoop { acc with videoMaterial := some f } rest
    | .image f => genLoop { acc with imageMaterialList := acc.imageMaterialList ++ [f] } rest
    | .url u   => genLoop { acc with urlMaterial := some u } rest
    | .other _ => .error momentErrMsg

/-- `MomentMixin.generateMomentPayload(post)`: run the conversion loop on
`post.payload.sayableList` starting from empty materials and assemble the
moment payload.  Note the source performs no non-emptiness check (its own
`FIXME` comment records the missing check). -/
def generateMomentPayload (sayableList : List SayablePayloadM) : Except String MomentPayloadM :=
  genLoop ⟨none, [], none, none⟩ sayableList

/-- Observable steps of `MomentMixin.post`. -/
inductive MomentAct where
  | callMomentPost (p : MomentPayloadM)
  | loadPost  (id : String)
  | readyPost (id : String)
  deriving DecidableEq, Repr

/-- `MomentMixin.post(post)`: convert the post (a thrown conversion error
propagates, i.e. `Except.error`), then call the backend `momentPost`, and
if the backend returns an id, load and hydrate the new Post.
`backendId` models the id the backend returns (`undefined` = `none`).
The result is the trace of performed actions plus the returned Post id. -/
def momentPost (sayableList : List SayablePayloadM) (backendId : Option String) :
    Except String (List MomentAct × Option String) :=
  match generateMomentPayload sayableList with
  | .error e => .error e
  | .ok mp =>
    match backendId with
    | some id => .ok ([MomentAct.callMomentPost mp, MomentAct.loadPost id, MomentAct.readyPost id], some id)
    | none    => .ok ([MomentAct.callMomentPost mp], none)

/-! ### Specification-side bucketing (for the refinement claim C7) -/

/-- The last element of a list, if any (the "last seen" item). -/
def lastOf : List α → Option α
  | [] => none
  | [x] => some x
  | _ :: y :: t => lastOf (y :: t)

/-- Text payload of a Sayable item, if it is a `Text`. -/
def textOf : SayablePayloadM → Option String
  | .text t => some t
  | _ => none

/-- Video payload of a Sayable item, if it is a `Video`. -/
def videoOf : SayablePayloadM → Option Nat
  | .video f => some f
  | _ => none

/-- Image payload of a Sayable item, if it is an `Image`. -/
def imageOf : SayablePayloadM → Option Nat
  | .image f => some f
  | _ => none

/-- Url-link payload of a Sayable item, if it is a `Url`. -/
def urlOf : SayablePayloadM → Option Nat
  | .url u => some u
  | _ => none

/-- Whether a Sayable item is of a kind other than Text/Video/Image/Url. -/
def isOtherKind : SayablePayloadM → Bool
  | .other _ => true
  | _ => false

/-- Modelled from the spec's words (refinement reference for C7): bucket the
Sayable list into at most one text item (the last Text seen), at most one
video item, the ordered list of image items, and at most one url-link item;
any other kind is a hard validation error. -/
def momentBucketSpec (sayableList : List SayablePayloadM) : Except String MomentPayloadM :=
  if sayableList.any isOtherKind then .error momentErrMsg
  else .ok ⟨lastOf (sayableList.filterMap textOf),
            sayableList.filterMap imageOf,
            lastOf (sayableList.filterMap videoOf),
            lastOf (sayableList.filterMap urlOf)⟩

/-- `lastOf` on a cons: the last element of the tail, defaulting to the head. -/
lemma lastOf_cons (x : α) (l : List α) : lastOf (x :: l) = some ((lastOf l).getD x) := by
  induction l generalizing x with
  | nil => rfl
  | cons y t ih =>
    show lastOf (y :: t) = some ((lastOf (y :: t)).getD x)
    rw [ih y]
    rfl

/-- Keep the newer value if present, else the accumulated one. -/
def keepLast (o : Option α) : Option α → Option α
  | some x => some x
  | none => o

lemma keepLast_some (v : α) (n : Option α) :
    keepLast (some v) n = some (n.getD v) := by
  cases n <;> rfl

lemma keepLast_app_some (o : Option α) (x : α) : keepLast o (some x) = some x := rfl

/-- Closed form of the conversion loop: it fails exactly when some item is
of an unconvertible kind, and otherwise each material is the last seen item
of its kind (or the accumulated one), images appended in order. -/
lemma genLoop_eq (l : List SayablePayloadM) : ∀ acc : MomentPayloadM,
    genLoop acc l =
      if l.any isOtherKind then .error momentErrMsg
      else .ok ⟨keepLast acc.textMaterial (lastOf (l.filterMap textOf)),
                acc.imageMaterialList ++ l.filterMap imageOf,
                keepLast acc.videoMaterial (lastOf (l.filterMap videoOf)),
                keepLast acc.urlMaterial (lastOf (l.filterMap urlOf))⟩ := by
  induction l with
  | nil =>
    intro acc
    simp [genLoop, keepLast, lastOf]
  | cons s t ih =>
    intro acc
    cases s with
    | text v =>
      rw [show genLoop acc (.text v :: t) = genLoop { acc with textMaterial := some v } t from rfl, ih]
      simp only [List.any_cons, isOtherKind, List.filterMap_cons, textOf, videoOf, imageOf, urlOf,
        Bool.false_or, lastOf_cons, keepLast_some, keepLast_app_some]
    | video f =>
      rw [show genLoop acc (.video f :: t) = genLoop { acc with videoMaterial := some f } t from rfl, ih]
      simp only [List.any_cons, isOtherKind, List.filterMap_cons, textOf, videoOf, imageOf, urlOf,
        Bool.false_or, lastOf_cons, keepLast_some, keepLast_app_some]
    | image f =>
      rw [show genLoop acc (.image f :: t) = genLoop { acc with imageMaterialList := acc.imageMaterialList ++ [f] } t from rfl, ih]
      simp only [List.any_cons, isOtherKind, List.filterMap_cons, textOf, videoOf, imageOf, urlOf,
        Bool.false_or, List.append_assoc, List.singleton_append]
    | url u =>
      rw [show genLoop acc (.url u :: t) = genLoop { acc with urlMaterial := some u } t from rfl, ih]
      simp only [List.any_cons, isOtherKind, List.filterMap_cons, textOf, videoOf, imageOf, urlOf,
        Bool.false_or, lastOf_cons, keepLast_some, keepLast_app_some]
    | other k =>
      simp [genLoop, isOtherKind]

lemma keepLast_none (n : Option α) : keepLast (none : Option α) n = n := by
  cases n <;> rfl

/-! ## Puppet event bridge (`Wechaty.initPuppetEventBridge`)

Each backend-event handler is an async closure; we embed it as a function
producing the ordered trace of observable actions it performs, plus a flag
saying whether its promise rejected (an `await` threw and no `catch` is
present in any of these handlers).  Hydration outcomes (`ready()`/`sync()`
rejections) are drawn from an explicit `HydrationFailures` environment. -/

/-- Observable actions of the puppet event bridge handlers. -/
inductive BAct where
  | loadFriendship (id : String)
  | readyFriendship (id : String)
  | emitFriendship
  | emitContactFriendship
  | loadContactSelf (id : String)
  | readyContactSelf (id : String)
  | emitLogin
  | emitLogout
  | loadMessage (id : String)
  | readyMessage (id : String)
  | emitMessage
  | emitRoomMessage (roomId : String)
  | loadRoom (id : String)
  | syncRoom (id : String)
  | loadContact (id : String)
  | readyContact (id : String)
  | emitRoomJoin
  | emitRoomJoinScoped
  | emitRoomLeave
  | emitRoomLeaveScoped
  | emitRoomTopic
  | emitRoomTopicScoped
  | roomPayloadDirty (id : String)
  | roomMemberPayloadDirty (id : String)
  | emitError
  deriving DecidableEq, Repr

/-- Which hydrations reject: each field lists the entity ids whose
`ready()` (or `sync()`, for rooms) rejects. -/
structure HydrationFailures where
  roomSync    : List String
  contact     : List String
  contactSelf : List String
  friendship  : List String
  message     : List String
  deriving Repr

/-- Result of running one bridge handler: the trace of actions performed in
order, and whether the handler's async closure rejected (unhandled — no
handler contains a `catch`). -/
structure HandlerResult where
  trace    : List BAct
  rejected : Bool
  deriving DecidableEq, Repr

/-- The `puppet.on('friendship', ...)` handler: load the Friendship, await
`ready()`, then emit bot-level `friendship` and the Contact-scoped
`friendship`. -/
def friendshipHandler (f : HydrationFailures) (friendshipId : String) : HandlerResult :=
  let t := [BAct.loadFriendship friendshipId, BAct.readyFriendship friendshipId]
  if friendshipId ∈ f.friendship then ⟨t, true⟩
  else ⟨t ++ [BAct.emitFriendship, BAct.emitContactFriendship], false⟩

/-- The `puppet.on('login', ...)` handler: load the self Contact, await
`ready()`, then emit bot-level `login`. -/
def loginHandler (f : HydrationFailures) (contactId : String) : HandlerResult :=
  let t := [BAct.loadContactSelf contactId, BAct.readyContactSelf contactId]
  if contactId ∈ f.contactSelf then ⟨t, true⟩
  else ⟨t ++ [BAct.emitLogin], false⟩

/-- The `puppet.on('logout', ...)` handler: load the self Contact, await
`ready()`, then emit bot-level `logout`. -/
def logoutHandler (f : HydrationFailures) (contactId : String) : HandlerResult :=
  let t := [BAct.loadContactSelf contactId, BAct.readyContactSelf contactId]
  if contactId ∈ f.contactSelf then ⟨t, true⟩
  else ⟨t ++ [BAct.emitLogout], false⟩

/-- The `puppet.on('message', ...)` handler: load the Message, await
`ready()`, emit bot-level `message`; then, if `msg.room()` yields a Room
(`room` is its id when so), emit the Room-scoped `message`. -/
def messageHandler (f : HydrationFailures) (messageId : String) (room : Option String) :
    HandlerResult :=
  let t := [BAct.loadMessage messageId, BAct.readyMessage messageId]
  if messageId ∈ f.message then ⟨t, true⟩
  else
    match room with
    | some roomId => ⟨t ++ [BAct.emitMessage, BAct.emitRoomMessage roomId], false⟩
    | none        => ⟨t ++ [BAct.emitMessage], false⟩

/-- The `room-join` backend payload. -/
structure RoomJoinPayload where
  roomId        : String
  inviteeIdList : List String
  inviterId     : String
  timestamp     : Nat
  deriving Repr

/-- The `puppet.on('room-join', ...)` handler: load and `sync()` the Room,
load every invitee Contact and await all their `ready()` in parallel
(`Promise.all` rejects when any rejects), load and `ready()` the inviter,
then emit bot-level `room-join` and the Room-scoped `join`. -/
def roomJoinHandler (f : HydrationFailures) (p : RoomJoinPayload) : HandlerResult :=
  let t1 := [BAct.loadRoom p.roomId, BAct.syncRoom p.roomId]
  if p.roomId ∈ f.roomSync then ⟨t1, true⟩
  else
    let t2 := t1 ++ p.inviteeIdList.map BAct.loadContact ++ p.inviteeIdList.map BAct.readyContact
    if p.inviteeIdList.any (· ∈ f.contact) then ⟨t2, true⟩
    else
      let t3 := t2 ++ [BAct.loadContact p.inviterId, BAct.readyContact p.inviterId]
      if p.inviterId ∈ f.contact then ⟨t3, true⟩
      else ⟨t3 ++ [BAct.emitRoomJoin, BAct.emitRoomJoinScoped], false⟩

/-- The `room-leave` backend payload. -/
structure RoomLeavePayload where
  roomId        : String
  removeeIdList : List String
  removerId     : String
  timestamp     : Nat
  deriving Repr

/-- The `puppet.on('room-leave', ...)` handler: load and `sync()` the Room,
hydrate every leaver (parallel `Promise.all`) and the remover, emit
bot-level `room-leave` and Room-scoped `leave`; then (issue #254), if
`puppet.selfId()` is among the removees, call `roomPayloadDirty` and
`roomMemberPayloadDirty` on the backend.  `selfId` models the value of
`this.puppet.selfId()` (`none` when falsy); the two payload-dirty backend
calls are modelled as succeeding. -/
def roomLeaveHandler (f : HydrationFailures) (selfId : Option String)
    (p : RoomLeavePayload) : HandlerResult :=
  let t1 := [BAct.loadRoom p.roomId, BAct.syncRoom p.roomId]
  if p.roomId ∈ f.roomSync then ⟨t1, true⟩
  else
    let t2 := t1 ++ p.removeeIdList.map BAct.loadContact ++ p.removeeIdList.map BAct.readyContact
    if p.removeeIdList.any (· ∈ f.contact) then ⟨t2, true⟩
    else
      let t3 := t2 ++ [BAct.loadContact p.removerId, BAct.readyContact p.removerId]
      if p.removerId ∈ f.contact then ⟨t3, true⟩
      else
        let t4 := t3 ++ [BAct.emitRoomLeave, BAct.emitRoomLeaveScoped]
        match selfId with
        | some sid =>
          if sid ∈ p.removeeIdList then
            ⟨t4 ++ [BAct.roomPayloadDirty p.roomId, BAct.roomMemberPayloadDirty p.roomId], false⟩
          else ⟨t4, false⟩
        | none => ⟨t4, false⟩

/-- The `room-topic` backend payload. -/
structure RoomTopicPayload where
  roomId    : String
  newTopic  : String
  oldTopic  : String
  changerId : String
  timestamp : Nat
  deriving Repr

/-- The `puppet.on('room-topic', ...)` handler: load and `sync()` the Room,
hydrate the changer Contact, then emit bot-level `room-topic` and the
Room-scoped `topic`. -/
def roomTopicHandler (f : HydrationFailures) (p : RoomTopicPayload) : HandlerResult :=
  let t1 := [BAct.loadRoom p.roomId, BAct.syncRoom p.roomId]
  if p.roomId ∈ f.roomSync then ⟨t1, true⟩
  else
    let t2 := t1 ++ [BAct.loadContact p.changerId, BAct.readyContact p.changerId]
    if p.changerId ∈ f.contact then ⟨t2, true⟩
    else ⟨t2 ++ [BAct.emitRoomTopic, BAct.emitRoomTopicScoped], false⟩

/-! ### Trace-position helpers -/

/-- Index of the first occurrence of an action in a trace. -/
def idxOf (a : BAct) : List BAct → Option Nat
  | [] => none
  | b :: t => if a = b then some 0 else (idxOf a t).map (· + 1)

/-- `a` occurs and its first occurrence is strictly before the first
occurrence of `b`. -/
def beforeB (a b : BAct) (tr : List BAct) : Bool :=
  match idxOf a tr, idxOf b tr with
  | some i, some j => i < j
  | _, _ => false

lemma idxOf_append_of_not_mem (a : BAct) (pre suf : List BAct) (h : a ∉ pre) :
    idxOf a (pre ++ suf) = (idxOf a suf).map (· + pre.length) := by
  induction pre with
  | nil => simp [Option.map_id']
  | cons b t ih =>
    have hab : a ≠ b := fun hh => h (hh ▸ List.mem_cons_self b t)
    have ht : a ∉ t := fun hh => h (List.mem_cons_of_mem b hh)
    show (if a = b then some 0 else (idxOf a (t ++ suf)).map (· + 1)) =
      Option.map (· + (b :: t).length) (idxOf a suf)
    rw [if_neg hab, ih ht]
    cases hx : idxOf a suf with
    | none => rfl
    | some n =>
      simp only [Option.map_some', Option.some.injEq, List.length_cons]
      omega

lemma beforeB_append (pre suf : List BAct) (a b : BAct)
    (ha : a ∉ pre) (hb : b ∉ pre) (h : beforeB a b suf = true) :
    beforeB a b (pre ++ suf) = true := by
  unfold beforeB at h ⊢
  rw [idxOf_append_of_not_mem a pre suf ha, idxOf_append_of_not_mem b pre suf hb]
  cases hia : idxOf a suf with
  | none => rw [hia] at h; simp at h
  | some i =>
    cases hib : idxOf b suf with
    | none => rw [hia, hib] at h; simp at h
    | some j =>
      rw [hia, hib] at h
      simp only [Option.map_some']
      simp only [decide_eq_true_eq] at h ⊢
      omega

lemma mem_append_right_of_mem {a : BAct} {suf : List BAct} (pre : List BAct)
    (h : a ∈ suf) : a ∈ pre ++ suf :=
  List.mem_append_right pre h

/-! ## Lifecycle state machine (`Wechaty.start` / `Wechaty.stop`)

The `state-switch` `StateSwitch` has four observable positions: fully off,
turning off (`off('pending')`), fully on, turning on (`on('pending')`).
The query `state.on()` is truthy on `on` and `pendingOn` (returning
`'pending'` there), `state.off()` dually. -/

/-- Position of a `StateSwitch`. -/
inductive SwitchState where
  | off | pendingOff | on | pendingOn
  deriving DecidableEq, Repr

/-- `state.on()` as a query: truthy iff on or turning on. -/
def SwitchState.onQuery : SwitchState → Bool
  | .on => true
  | .pendingOn => true
  | _ => false

/-- `state.off()` as a query: truthy iff off or turning off. -/
def SwitchState.offQuery : SwitchState → Bool
  | .off => true
  | .pendingOff => true
  | _ => false

instance : Fintype SwitchState :=
  ⟨⟨{SwitchState.off, SwitchState.pendingOff, SwitchState.on, SwitchState.pendingOn}, by decide⟩,
   by intro x; cases x <;> decide⟩

/-- The fields of a `Wechaty` instance read or written by `start()` and
`stop()`.  `hasMemory` is whether `this.memory` is set; `hasIoToken`
whether `options.ioToken` was supplied; `ioStarted` whether `this.io` is
set; `puppetInited` whether `this.puppet` has been initialized (the guard
inside `initPuppet()`). -/
structure WechatyLife where
  state        : SwitchState
  readyStateOn : Bool
  lifeTimer    : Bool
  hasMemory    : Bool
  hasIoToken   : Bool
  ioStarted    : Bool
  puppetInited : Bool
  deriving DecidableEq, Repr

instance : Fintype WechatyLife :=
  Fintype.ofEquiv (SwitchState × Bool × Bool × Bool × Bool × Bool × Bool)
    { toFun := fun x => ⟨x.1, x.2.1, x.2.2.1, x.2.2.2.1, x.2.2.2.2.1, x.2.2.2.2.2.1, x.2.2.2.2.2.2⟩
      invFun := fun w => ⟨w.state, w.readyStateOn, w.lifeTimer, w.hasMemory, w.hasIoToken, w.ioStarted, w.puppetInited⟩
      left_inv := fun _ => rfl
      right_inv := fun _ => rfl }

/-- Which awaited sub-operations of `start()`/`stop()` reject. -/
structure StartEnv where
  memoryLoadFails  : Bool
  initPuppetFails  : Bool
  puppetStartFails : Bool
  ioStartFails     : Bool
  puppetStopFails  : Bool
  ioStopFails      : Bool
  deriving DecidableEq, Repr

instance : Fintype StartEnv :=
  Fintype.ofEquiv (Bool × Bool × Bool × Bool × Bool × Bool)
    { toFun := fun x => ⟨x.1, x.2.1, x.2.2.1, x.2.2.2.1, x.2.2.2.2.1, x.2.2.2.2.2⟩
      invFun := fun e => ⟨e.memoryLoadFails, e.initPuppetFails, e.puppetStartFails, e.ioStartFails, e.puppetStopFails, e.ioStopFails⟩
      left_inv := fun _ => rfl
      right_inv := fun _ => rfl }

/-- Observable steps of `start()`/`stop()`. -/
inductive LAct where
  | waitStateReadyOn
  | waitStateReadyOff
  | readyStateOff
  | newMemory
  | memoryLoad
  | memoryLoadSwallowed
  | initPuppet
  | puppetStart
  | ioStart
  | onHeartbeatRegistered
  | setLifeTimer
  | clearLifeTimer
  | puppetStop
  | ioStop
  | emitError
  | emitStart
  | emitStop
  deriving DecidableEq, Repr

/-- `Wechaty.stop()`: early-return (awaiting `state.ready('off')`) when the
state query `off()` is truthy; otherwise re-arm the ready state, switch to
turning-off, clear the life timer, stop the puppet (a rejection is caught
and only logged), stop the io client (a rejection is caught, logged, and
emitted as `error`), switch fully off and emit `stop`.  `stop()` never
rejects. -/
def stopFn (w : WechatyLife) (env : StartEnv) : WechatyLife × List LAct :=
  if w.state.offQuery then (w, [LAct.waitStateReadyOff])
  else
    let w1 : WechatyLife := { w with readyStateOn := false, state := SwitchState.pendingOff }
    let p1 : WechatyLife × List LAct :=
      if w1.lifeTimer then ({ w1 with lifeTimer := false }, [LAct.readyStateOff, LAct.clearLifeTimer])
      else (w1, [LAct.readyStateOff])
    let t2 := p1.2 ++ [LAct.puppetStop]
    let p3 : WechatyLife × List LAct :=
      if p1.1.ioStarted then
        if env.ioStopFails then (p1.1, t2 ++ [LAct.ioStop, LAct.emitError])
        else ({ p1.1 with ioStarted := false }, t2 ++ [LAct.ioStop])
      else (p1.1, t2)
    ({ p3.1 with state := SwitchState.off }, p3.2 ++ [LAct.emitStop])

/-- The condition under which the `try` block of `start()` throws: puppet
initialization fails (only attempted when not yet initialized), or
`puppet.start()` fails, or io is configured and `io.start()` fails.  A
`memory.load()` rejection is caught by its own inner `try`/`catch` and only
logged, so it is not part of this condition. -/
def startTryFails (w : WechatyLife) (env : StartEnv) : Bool :=
  (!w.puppetInited && env.initPuppetFails) || env.puppetStartFails ||
    (w.hasIoToken && env.ioStartFails)

/-- The catch branch of `start()`: emit `error`, then best-effort
`await this.stop()` (whose own rejection would be emitted as a second
`error`; in the model `stop()` never rejects), then `return`. -/
def startCatch (w : WechatyLife) (env : StartEnv) (t : List LAct) :
    WechatyLife × List LAct :=
  let p := stopFn w env
  (p.1, t ++ [LAct.emitError] ++ p.2)

/-- `Wechaty.start()`: early-return (awaiting `state.ready('on')`) when the
state query `on()` is truthy; otherwise re-arm the ready state, throw if a
life timer already exists, switch to turning-on, and run the `try` block:
ensure a memory card (creating one if absent), load it (rejection
swallowed), initialize the puppet, start the puppet, start io when an
ioToken is configured.  A `try`-block rejection goes to `startCatch`.  On
success, register the heartbeat-driven memory check, set the life timer,
switch fully on and emit `start`.  The `Except.error` case is the returned
promise rejecting. -/
def startFn (w : WechatyLife) (env : StartEnv) :
    Except String (WechatyLife × List LAct) :=
  if w.state.onQuery then .ok (w, [LAct.waitStateReadyOn])
  else
    let w1 : WechatyLife := { w with readyStateOn := false }
    if w1.lifeTimer then .error "start() lifeTimer exist"
    else
      let w2 : WechatyLife := { w1 with state := SwitchState.pendingOn }
      let p3 : WechatyLife × List LAct :=
        if w2.hasMemory then (w2, [LAct.readyStateOff])
        else ({ w2 with hasMemory := true }, [LAct.readyStateOff, LAct.newMemory])
      let t4 := p3.2 ++ [LAct.memoryLoad] ++
        (if env.memoryLoadFails then [LAct.memoryLoadSwallowed] else [])
      if !p3.1.puppetInited && env.initPuppetFails then
        .ok (startCatch p3.1 env (t4 ++ [LAct.initPuppet]))
      else
        let p5 : WechatyLife × List LAct :=
          ({ p3.1 with puppetInited := true }, t4 ++ [LAct.initPuppet])
        if env.puppetStartFails then
          .ok (startCatch p5.1 env (p5.2 ++ [LAct.puppetStart]))
        else
          let t6 := p5.2 ++ [LAct.puppetStart]
          if p5.1.hasIoToken then
            if env.ioStartFails then
              .ok (startCatch { p5.1 with ioStarted := true } env (t6 ++ [LAct.ioStart]))
            else
              .ok ({ p5.1 with ioStarted := true, lifeTimer := true, state := SwitchState.on },
                t6 ++ [LAct.ioStart, LAct.onHeartbeatRegistered, LAct.setLifeTimer, LAct.emitStart])
          else
            .ok ({ p5.1 with lifeTimer := true, state := SwitchState.on },
              t6 ++ [LAct.onHeartbeatRegistered, LAct.setLifeTimer, LAct.emitStart])

/-- The trace of a `start()` call (empty when the call rejects). -/
def startTrace (w : WechatyLife) (env : StartEnv) : List LAct :=
  match startFn w env with
  | .ok (_, t) => t
  | .error _ => []

/-- The instance state after a `start()` call (unchanged when it rejects
before any mutation beyond the guards). -/
def startState (w : WechatyLife) (env : StartEnv) : WechatyLife :=
  match startFn w env with
  | .ok (w', _) => w'
  | .error _ => w

/-! ## Singleton accessor, plugins, logonoff -/

/-- A constructed `Wechaty` instance as far as `Wechaty.instance` is
concerned: its identity (a fresh token standing for the object reference)
and the options it was constructed with. -/
structure WInstance where
  id      : Nat
  options : Option Nat
  deriving DecidableEq, Repr

/-- The mutable static state behind `Wechaty.instance`: the
`globalInstance` field, plus a fresh-id counter standing for object
allocation. -/
structure GlobalState where
  globalInstance : Option WInstance
  nextId         : Nat
  deriving DecidableEq, Repr

/-- `Wechaty.instance(options?)`: throw when options are passed while a
global instance already exists; otherwise create the global instance on
first call and return it, or return the existing one. -/
def instanceAccessor (options : Option Nat) (st : GlobalState) :
    Except String (WInstance × GlobalState) :=
  if options.isSome && st.globalInstance.isSome then
    .error "instance can be only initialized once by options!"
  else
    match st.globalInstance with
    | none =>
      let w : WInstance := ⟨st.nextId, options⟩
      .ok (w, ⟨some w, st.nextId + 1⟩)
    | some g => .ok (g, st)

/-- A plugin as passed to `use()`: an opaque identity and the value the
plugin function returns when invoked (`some u` = an uninstaller closure,
`none` = `void`). -/
structure WPlugin where
  pid         : Nat
  uninstaller : Option Nat
  deriving DecidableEq, Repr

/-- An observable step of `use()`. -/
inductive UseAct where
  | invokePlugin (pid : Nat)
  deriving DecidableEq, Repr

/-- Instance-level `Wechaty.use(...plugins)`: after flattening,
`pluginList.forEach(plugin => plugin(this))` — each plugin function is
invoked synchronously, in list order, with the instance as argument; the
`forEach` callback discards the plugin's return value, and the `Wechaty`
class has no field in which an uninstaller could be stored.  The first
component is the ordered invocation trace; the second is the list of
return values retained by the core. -/
def useFn (plugins : List WPlugin) : List UseAct × List Nat :=
  plugins.foldl
    (fun (st : List UseAct × List Nat) p =>
      (st.1 ++ [UseAct.invokePlugin p.pid], st.2))
    ([], [])

/-- A puppet as far as `logonoff()` is concerned: what its `logonoff()`
call does (`.ok b` returns `b`, `.error` throws). -/
structure PuppetM where
  logonoffResult : Except String Bool
  deriving Repr

/-- The expression `this.puppet.logonoff()`: when `this.puppet` was never
assigned (definite-assignment assertion `puppet!`), reading a method off
`undefined` throws a `TypeError`; otherwise the call behaves as the puppet
does. -/
def puppetLogonoffCall : Option PuppetM → Except String Bool
  | none => .error "TypeError: this.puppet is undefined"
  | some p => p.logonoffResult

/-- `Wechaty.logonoff()`: `try { return this.puppet.logonoff() } catch (e)
{ return false }`. -/
def logonoff (puppet : Option PuppetM) : Bool :=
  match puppetLogonoffCall puppet with
  | .ok b => b
  | .error _ => false

/-- Whether a `start()` call's returned promise resolves (rather than
rejecting). -/
def startResolves (w : WechatyLife) (env : StartEnv) : Bool :=
  match startFn w env with
  | .ok _ => true
  | .error _ => false

/-! ## Claims -/

/-- C7: `generateMomentPayload` buckets the Sayable items into at most one
text item (the last Text seen), at most one video item, an ordered list of
image items preserving input order, and at most one url-link item;
encountering any Sayable of another kind throws a hard validation error.
Stated as: the source conversion coincides with the spec-side bucketing
`momentBucketSpec` on every input list. -/
theorem c7_generateMomentPayload_buckets (l : List SayablePayloadM) :
    generateMomentPayload l = momentBucketSpec l := by
  unfold generateMomentPayload momentBucketSpec
  rw [genLoop_eq]
  simp only [keepLast_none, List.nil_append]

/-- C4 (code bug): on a built Post with zero Sayable items, `Moment.post`
does not raise any validation error — the conversion succeeds with an
entirely empty moment payload and the backend `momentPost` call is issued
with it.  (The source's own `FIXME` comment records the missing
at-least-one-material check.) -/
theorem c4_empty_post_reaches_backend :
    generateMomentPayload [] = .ok ⟨none, [], none, none⟩
    ∧ momentPost [] (some "moment-id") =
        .ok ([MomentAct.callMomentPost ⟨none, [], none, none⟩,
              MomentAct.loadPost "moment-id", MomentAct.readyPost "moment-id"],
             some "moment-id") :=
  ⟨rfl, rfl⟩

/-- C9: `Wechaty.instance()` is a guarded singleton accessor: the first
call creates the global instance with the given options (if any) and
stores it; a subsequent call without options returns the identical stored
object and leaves the state untouched; a subsequent call passing options
while an instance exists throws. -/
theorem c9_instance_guarded_singleton :
    (∀ (o : Option Nat) (st : GlobalState), st.globalInstance = none →
        instanceAccessor o st =
          .ok (⟨st.nextId, o⟩, ⟨some ⟨st.nextId, o⟩, st.nextId + 1⟩))
    ∧ (∀ (st : GlobalState) (g : WInstance), st.globalInstance = some g →
        instanceAccessor none st = .ok (g, st))
    ∧ (∀ (st : GlobalState) (g : WInstance) (o : Nat), st.globalInstance = some g →
        instanceAccessor (some o) st =
          .error "instance can be only initialized once by options!") := by
  refine ⟨?_, ?_, ?_⟩
  · intro o st h
    simp [instanceAccessor, h]
  · intro st g h
    simp [instanceAccessor, h]
  · intro st g o h
    simp [instanceAccessor, h]

/-- Witness for C9 at a concrete run: create with options `7`, re-read the
identical instance, and observe the guard throw when options are passed
again. -/
theorem c9_instance_witness :
    instanceAccessor (some 7) ⟨none, 0⟩ = .ok (⟨0, some 7⟩, ⟨some ⟨0, some 7⟩, 1⟩)
    ∧ instanceAccessor none ⟨some ⟨0, some 7⟩, 1⟩ = .ok (⟨0, some 7⟩, ⟨some ⟨0, some 7⟩, 1⟩)
    ∧ instanceAccessor (some 9) ⟨some ⟨0, some 7⟩, 1⟩ =
        .error "instance can be only initialized once by options!" :=
  ⟨c9_instance_guarded_singleton.1 (some 7) ⟨none, 0⟩ rfl,
   c9_instance_guarded_singleton.2.1 ⟨some ⟨0, some 7⟩, 1⟩ ⟨0, some 7⟩ rfl,
   c9_instance_guarded_singleton.2.2 ⟨some ⟨0, some 7⟩, 1⟩ ⟨0, some 7⟩ 9 rfl⟩

/-- C10: `Wechaty.logonoff()` is total and never throws: it returns the
puppet's boolean when the underlying call returns, and returns `false`
whenever the underlying `puppet.logonoff()` call throws — including when
`this.puppet` was never initialized. -/
theorem c10_logonoff_total (p : Option PuppetM) :
    (∀ e, puppetLogonoffCall p = .error e → logonoff p = false)
    ∧ (∀ b, puppetLogonoffCall p = .ok b → logonoff p = b)
    ∧ logonoff none = false := by
  refine ⟨?_, ?_, rfl⟩ <;> intro x h <;> simp [logonoff, h]

/-- Witness for C10: a puppet whose `logonoff()` throws makes
`Wechaty.logonoff()` return `false`. -/
theorem c10_logonoff_witness :
    puppetLogonoffCall (some ⟨Except.error "not logged in"⟩) = Except.error "not logged in"
    ∧ logonoff (some ⟨Except.error "not logged in"⟩) = false :=
  ⟨rfl, (c10_logonoff_total (some ⟨Except.error "not logged in"⟩)).1 "not logged in" rfl⟩

/-- C8 (counterexample): a plugin that returns an uninstaller closure is
invoked, but the closure is NOT recorded anywhere by the core — `forEach`
discards the return value — contradicting the claim that the core retains
it. -/
theorem c8_counterexample :
    (useFn [⟨1, some 42⟩]).1 = [UseAct.invokePlugin 1]
    ∧ (useFn [⟨1, some 42⟩]).2 = []
    ∧ ¬ (42 ∈ (useFn [⟨1, some 42⟩]).2) := by
  refine ⟨rfl, rfl, ?_⟩
  decide

/-- C8 (amended): every plugin function passed to instance-level `use()` is
immediately and synchronously invoked with the bot instance as argument, in
the order supplied; a returned uninstaller closure is discarded — the core
retains none of the plugins' return values. -/
theorem c8_use_in_order_uninstallers_discarded (ps : List WPlugin) :
    (useFn ps).1 = ps.map (fun p => UseAct.invokePlugin p.pid)
    ∧ (useFn ps).2 = [] := by
  have key : ∀ (l : List WPlugin) (acc : List UseAct × List Nat),
      l.foldl (fun (st : List UseAct × List Nat) p =>
          (st.1 ++ [UseAct.invokePlugin p.pid], st.2)) acc
        = (acc.1 ++ l.map (fun p => UseAct.invokePlugin p.pid), acc.2) := by
    intro l
    induction l with
    | nil => intro acc; simp
    | cons p t ih =>
      intro acc
      rw [List.foldl_cons, ih]
      simp
  unfold useFn
  rw [key]
  simp

/-- C3: for a `message` backend event whose hydration succeeds, the Message
completes `ready()` before any domain event is emitted; the bot-level
`message` event fires, and exactly when `msg.room()` yields a Room the
Room-scoped `message` fires afterwards — in that order. -/
theorem c3_message_event_ordering (f : HydrationFailures) (mid : String)
    (room : Option String) (h : mid ∉ f.message) :
    (messageHandler f mid room).rejected = false
    ∧ beforeB (BAct.readyMessage mid) BAct.emitMessage (messageHandler f mid room).trace = true
    ∧ (∀ rid, room = some rid →
        beforeB BAct.emitMessage (BAct.emitRoomMessage rid) (messageHandler f mid room).trace = true
        ∧ beforeB (BAct.readyMessage mid) (BAct.emitRoomMessage rid) (messageHandler f mid room).trace = true)
    ∧ (room = none → ∀ rid, BAct.emitRoomMessage rid ∉ (messageHandler f mid room).trace) := by
  cases room with
  | some r =>
    refine ⟨?_, ?_, ?_, ?_⟩
    · simp [messageHandler, h]
    · simp [messageHandler, h, beforeB, idxOf]
    · intro rid hr
      cases hr
      constructor <;> simp [messageHandler, h, beforeB, idxOf]
    · intro hr
      cases hr
  | none =>
    refine ⟨?_, ?_, ?_, ?_⟩
    · simp [messageHandler, h]
    · simp [messageHandler, h, beforeB, idxOf]
    · intro rid hr
      cases hr
    · intro _ rid
      simp [messageHandler, h]

/-- Witness for C3: a concrete message in a room — hydration first, then
the bot-level `message`, then the Room-scoped `message`. -/
theorem c3_message_witness :
    (messageHandler ⟨[], [], [], [], []⟩ "m1" (some "r1")).rejected = false
    ∧ beforeB (BAct.readyMessage "m1") BAct.emitMessage
        (messageHandler ⟨[], [], [], [], []⟩ "m1" (some "r1")).trace = true
    ∧ beforeB BAct.emitMessage (BAct.emitRoomMessage "r1")
        (messageHandler ⟨[], [], [], [], []⟩ "m1" (some "r1")).trace = true :=
  ⟨(c3_message_event_ordering ⟨[], [], [], [], []⟩ "m1" (some "r1") (by simp)).1,
   (c3_message_event_ordering ⟨[], [], [], [], []⟩ "m1" (some "r1") (by simp)).2.1,
   ((c3_message_event_ordering ⟨[], [], [], [], []⟩ "m1" (some "r1") (by simp)).2.2.1 "r1" rfl).1⟩

/-- C2 (counterexample): a `message` event whose hydration fails does not
produce a bot-level `error` event — the handler's promise simply rejects
(the rejection is unhandled), contradicting the claim that the failure is
reported as a bot-level `error`. -/
theorem c2_counterexample :
    (messageHandler ⟨[], [], [], [], ["m1"]⟩ "m1" none).rejected = true
    ∧ BAct.emitError ∉ (messageHandler ⟨[], [], [], [], ["m1"]⟩ "m1" none).trace
    ∧ BAct.emitMessage ∉ (messageHandler ⟨[], [], [], [], ["m1"]⟩ "m1" none).trace := by
  refine ⟨rfl, ?_, ?_⟩ <;> decide

/-- C2 (amended): for every hydrating bridge handler (friendship, login,
logout, message, room-join, room-leave, room-topic), if a hydration inside
the handler fails, the triggering domain event is not emitted for that
occurrence — but the failure is NOT reported as a bot-level `error` event;
the handler's async closure rejects, with the rejection unhandled. -/
theorem c2_hydration_failure_no_emit_no_error :
    (∀ (f : HydrationFailures) (fid : String), fid ∈ f.friendship →
        (friendshipHandler f fid).rejected = true
        ∧ BAct.emitFriendship ∉ (friendshipHandler f fid).trace
        ∧ BAct.emitContactFriendship ∉ (friendshipHandler f fid).trace
        ∧ BAct.emitError ∉ (friendshipHandler f fid).trace)
    ∧ (∀ (f : HydrationFailures) (cid : String), cid ∈ f.contactSelf →
        (loginHandler f cid).rejected = true
        ∧ BAct.emitLogin ∉ (loginHandler f cid).trace
        ∧ BAct.emitError ∉ (loginHandler f cid).trace)
    ∧ (∀ (f : HydrationFailures) (cid : String), cid ∈ f.contactSelf →
        (logoutHandler f cid).rejected = true
        ∧ BAct.emitLogout ∉ (logoutHandler f cid).trace
        ∧ BAct.emitError ∉ (logoutHandler f cid).trace)
    ∧ (∀ (f : HydrationFailures) (mid : String) (room : Option String), mid ∈ f.message →
        (messageHandler f mid room).rejected = true
        ∧ BAct.emitMessage ∉ (messageHandler f mid room).trace
        ∧ (∀ rid, BAct.emitRoomMessage rid ∉ (messageHandler f mid room).trace)
        ∧ BAct.emitError ∉ (messageHandler f mid room).trace)
    ∧ (∀ (f : HydrationFailures) (p : RoomJoinPayload),
        (p.roomId ∈ f.roomSync ∨ p.inviteeIdList.any (· ∈ f.contact) = true
          ∨ p.inviterId ∈ f.contact) →
        (roomJoinHandler f p).rejected = true
        ∧ BAct.emitRoomJoin ∉ (roomJoinHandler f p).trace
        ∧ BAct.emitRoomJoinScoped ∉ (roomJoinHandler f p).trace
        ∧ BAct.emitError ∉ (roomJoinHandler f p).trace)
    ∧ (∀ (f : HydrationFailures) (sid : Option String) (p : RoomLeavePayload),
        (p.roomId ∈ f.roomSync ∨ p.removeeIdList.any (· ∈ f.contact) = true
          ∨ p.removerId ∈ f.contact) →
        (roomLeaveHandler f sid p).rejected = true
        ∧ BAct.emitRoomLeave ∉ (roomLeaveHandler f sid p).trace
        ∧ BAct.emitRoomLeaveScoped ∉ (roomLeaveHandler f sid p).trace
        ∧ BAct.emitError ∉ (roomLeaveHandler f sid p).trace)
    ∧ (∀ (f : HydrationFailures) (p : RoomTopicPayload),
        (p.roomId ∈ f.roomSync ∨ p.changerId ∈ f.contact) →
        (roomTopicHandler f p).rejected = true
        ∧ BAct.emitRoomTopic ∉ (roomTopicHandler f p).trace
        ∧ BAct.emitRoomTopicScoped ∉ (roomTopicHandler f p).trace
        ∧ BAct.emitError ∉ (roomTopicHandler f p).trace) := by
  refine ⟨?_, ?_, ?_, ?_, ?_, ?_, ?_⟩
  · intro f fid h
    simp [friendshipHandler, h]
  · intro f cid h
    simp [loginHandler, h]
  · intro f cid h
    simp [logoutHandler, h]
  · intro f mid room h
    cases room <;> simp [messageHandler, h]
  · intro f p h
    by_cases h1 : p.roomId ∈ f.roomSync
    · simp [roomJoinHandler, h1]
    · by_cases h2 : p.inviteeIdList.any (· ∈ f.contact) = true
      · simp [roomJoinHandler, h1, h2]
      · have h3 : p.inviterId ∈ f.contact := by tauto
        simp [roomJoinHandler, h1, h2, h3]
  · intro f sid p h
    by_cases h1 : p.roomId ∈ f.roomSync
    · simp [roomLeaveHandler, h1]
    · by_cases h2 : p.removeeIdList.any (· ∈ f.contact) = true
      · simp [roomLeaveHandler, h1, h2]
      · have h3 : p.removerId ∈ f.contact := by tauto
        simp [roomLeaveHandler, h1, h2, h3]
  · intro f p h
    by_cases h1 : p.roomId ∈ f.roomSync
    · simp [roomTopicHandler, h1]
    · have h2 : p.changerId ∈ f.contact := by tauto
      simp [roomTopicHandler, h1, h2]

/-- Witness for C2 (amended): concrete hydration failures in each of the
seven handlers reject without emitting the domain event. -/
theorem c2_failure_witness :
    (friendshipHandler ⟨[], [], [], ["f1"], []⟩ "f1").rejected = true
    ∧ (loginHandler ⟨[], [], ["c1"], [], []⟩ "c1").rejected = true
    ∧ (logoutHandler ⟨[], [], ["c1"], [], []⟩ "c1").rejected = true
    ∧ (messageHandler ⟨[], [], [], [], ["m1"]⟩ "m1" (some "r1")).rejected = true
    ∧ (roomJoinHandler ⟨["r1"], [], [], [], []⟩ ⟨"r1", [], "i1", 0⟩).rejected = true
    ∧ (roomLeaveHandler ⟨["r1"], [], [], [], []⟩ none ⟨"r1", [], "x1", 0⟩).rejected = true
    ∧ (roomTopicHandler ⟨["r1"], [], [], [], []⟩ ⟨"r1", "n", "o", "ch", 0⟩).rejected = true :=
  ⟨(c2_hydration_failure_no_emit_no_error.1 ⟨[], [], [], ["f1"], []⟩ "f1" (by simp)).1,
   (c2_hydration_failure_no_emit_no_error.2.1 ⟨[], [], ["c1"], [], []⟩ "c1" (by simp)).1,
   (c2_hydration_failure_no_emit_no_error.2.2.1 ⟨[], [], ["c1"], [], []⟩ "c1" (by simp)).1,
   (c2_hydration_failure_no_emit_no_error.2.2.2.1 ⟨[], [], [], [], ["m1"]⟩ "m1" (some "r1") (by simp)).1,
   (c2_hydration_failure_no_emit_no_error.2.2.2.2.1 ⟨["r1"], [], [], [], []⟩ ⟨"r1", [], "i1", 0⟩ (Or.inl (by simp))).1,
   (c2_hydration_failure_no_emit_no_error.2.2.2.2.2.1 ⟨["r1"], [], [], [], []⟩ none ⟨"r1", [], "x1", 0⟩ (Or.inl (by simp))).1,
   (c2_hydration_failure_no_emit_no_error.2.2.2.2.2.2 ⟨["r1"], [], [], [], []⟩ ⟨"r1", "n", "o", "ch", 0⟩ (Or.inl (by simp))).1⟩

/-- C6 (counterexample): a `room-leave` whose `removeeIdList` contains the
bot's own id does issue both payload-dirty calls, but strictly AFTER the
`room-leave` domain event was emitted — the dirty calls do not come before
(or at) the emission, contradicting the claimed before/alongside order. -/
theorem c6_counterexample :
    BAct.roomPayloadDirty "r1" ∈
      (roomLeaveHandler ⟨[], [], [], [], []⟩ (some "bot") ⟨"r1", ["bot"], "u1", 0⟩).trace
    ∧ beforeB (BAct.roomPayloadDirty "r1") BAct.emitRoomLeave
        (roomLeaveHandler ⟨[], [], [], [], []⟩ (some "bot") ⟨"r1", ["bot"], "u1", 0⟩).trace = false
    ∧ beforeB (BAct.roomMemberPayloadDirty "r1") BAct.emitRoomLeave
        (roomLeaveHandler ⟨[], [], [], [], []⟩ (some "bot") ⟨"r1", ["bot"], "u1", 0⟩).trace = false
    ∧ beforeB BAct.emitRoomLeave (BAct.roomPayloadDirty "r1")
        (roomLeaveHandler ⟨[], [], [], [], []⟩ (some "bot") ⟨"r1", ["bot"], "u1", 0⟩).trace = true := by
  refine ⟨?_, ?_, ?_, ?_⟩ <;> decide

/-- C6 (amended): for every `room-leave` backend event whose hydrations
succeed and whose `removeeIdList` contains the bot's own id, the bridge
issues `roomPayloadDirty` then `roomMemberPayloadDirty` for that room
within the same handler occurrence, after the emission of the bot-level
`room-leave` and Room-scoped `leave` domain events. -/
theorem c6_room_leave_dirty_after_emit (f : HydrationFailures) (sid : String)
    (p : RoomLeavePayload)
    (h1 : p.roomId ∉ f.roomSync)
    (h2 : p.removeeIdList.any (· ∈ f.contact) = false)
    (h3 : p.removerId ∉ f.contact)
    (h4 : sid ∈ p.removeeIdList) :
    BAct.roomPayloadDirty p.roomId ∈ (roomLeaveHandler f (some sid) p).trace
    ∧ BAct.roomMemberPayloadDirty p.roomId ∈ (roomLeaveHandler f (some sid) p).trace
    ∧ beforeB BAct.emitRoomLeave (BAct.roomPayloadDirty p.roomId)
        (roomLeaveHandler f (some sid) p).trace = true
    ∧ beforeB BAct.emitRoomLeaveScoped (BAct.roomPayloadDirty p.roomId)
        (roomLeaveHandler f (some sid) p).trace = true
    ∧ beforeB (BAct.roomPayloadDirty p.roomId) (BAct.roomMemberPayloadDirty p.roomId)
        (roomLeaveHandler f (some sid) p).trace = true
    ∧ (roomLeaveHandler f (some sid) p).rejected = false := by
  have htr : (roomLeaveHandler f (some sid) p).trace =
      (BAct.loadRoom p.roomId :: BAct.syncRoom p.roomId ::
        (p.removeeIdList.map BAct.loadContact ++ p.removeeIdList.map BAct.readyContact ++
          [BAct.loadContact p.removerId, BAct.readyContact p.removerId]))
      ++ [BAct.emitRoomLeave, BAct.emitRoomLeaveScoped,
          BAct.roomPayloadDirty p.roomId, BAct.roomMemberPayloadDirty p.roomId] := by
    simp [roomLeaveHandler, h1, h2, h3, h4]
  have hrej : (roomLeaveHandler f (some sid) p).rejected = false := by
    simp [roomLeaveHandler, h1, h2, h3, h4]
  rw [htr]
  refine ⟨by simp, by simp, ?_, ?_, ?_, hrej⟩
  · exact beforeB_append _ _ _ _ (by simp) (by simp) (by simp [beforeB, idxOf])
  · exact beforeB_append _ _ _ _ (by simp) (by simp) (by simp [beforeB, idxOf])
  · exact beforeB_append _ _ _ _ (by simp) (by simp) (by simp [beforeB, idxOf])

/-- Witness for C6 (amended): the concrete bot-leaves-room case — both
dirty calls are present, after both emissions. -/
theorem c6_room_leave_witness :
    BAct.roomPayloadDirty "r2" ∈
      (roomLeaveHandler ⟨[], [], [], [], []⟩ (some "self") ⟨"r2", ["self", "o1"], "u2", 5⟩).trace
    ∧ beforeB BAct.emitRoomLeave (BAct.roomPayloadDirty "r2")
        (roomLeaveHandler ⟨[], [], [], [], []⟩ (some "self") ⟨"r2", ["self", "o1"], "u2", 5⟩).trace = true :=
  ⟨(c6_room_leave_dirty_after_emit ⟨[], [], [], [], []⟩ "self" ⟨"r2", ["self", "o1"], "u2", 5⟩
      (by simp) (by simp) (by simp) (by simp)).1,
   (c6_room_leave_dirty_after_emit ⟨[], [], [], [], []⟩ "self" ⟨"r2", ["self", "o1"], "u2", 5⟩
      (by simp) (by simp) (by simp) (by simp)).2.2.1⟩

/-- C1 (counterexample): `start()` can throw on an instance whose state is
not On.  First conjunct: with the state fully Off but a life timer already
set, `start()` rejects with `start() lifeTimer exist` instead of resolving.
Remaining conjuncts: a `memory.load()` exception is not converted into a
`stop()` plus an `error` event either — it is swallowed and the start
sequence completes normally, emitting `start`. -/
theorem c1_counterexample :
    SwitchState.onQuery SwitchState.off = false
    ∧ startFn ⟨SwitchState.off, false, true, true, false, false, false⟩
        ⟨false, false, false, false, false, false⟩ = .error "start() lifeTimer exist"
    ∧ startResolves ⟨SwitchState.off, false, false, true, false, false, false⟩
        ⟨true, false, false, false, false, false⟩ = true
    ∧ LAct.emitError ∉ startTrace ⟨SwitchState.off, false, false, true, false, false, false⟩
        ⟨true, false, false, false, false, false⟩
    ∧ LAct.puppetStop ∉ startTrace ⟨SwitchState.off, false, false, true, false, false, false⟩
        ⟨true, false, false, false, false, false⟩
    ∧ LAct.emitStart ∈ startTrace ⟨SwitchState.off, false, false, true, false, false, false⟩
        ⟨true, false, false, false, false, false⟩ := by
  refine ⟨rfl, rfl, rfl, ?_, ?_, ?_⟩ <;> decide

/-- C1 (amended): on an instance whose state is not On (nor turning On) and
whose life timer is not set, `start()` never rejects: a failure of puppet
initialization, `puppet.start()`, or `io.start()` is converted into an
emitted `error` event plus a best-effort `stop()` (which stops the puppet
and emits `stop`), and no `start` event fires; absent such a failure — even
if `memory.load()` threw, which is swallowed without any `error` event —
the sequence completes and emits `start`.  With a life timer already set,
`start()` throws. -/
theorem c1_start_never_rejects (w : WechatyLife) (env : StartEnv)
    (hOn : w.state.onQuery = false) (hTimer : w.lifeTimer = false) :
    startResolves w env = true
    ∧ (startTryFails w env = true →
        LAct.emitError ∈ startTrace w env
        ∧ LAct.puppetStop ∈ startTrace w env
        ∧ LAct.emitStop ∈ startTrace w env
        ∧ LAct.emitStart ∉ startTrace w env)
    ∧ (startTryFails w env = false →
        LAct.emitError ∉ startTrace w env
        ∧ LAct.emitStart ∈ startTrace w env) := by
  obtain ⟨st, rs, lt, hm, hio, ios, pi⟩ := w
  obtain ⟨ml, ip, ps, io1, pst, iost⟩ := env
  simp only at hTimer
  subst hTimer
  cases st
  · clear hOn
    revert rs hm hio ios pi ml ip ps io1 pst iost
    set_option maxRecDepth 10000 in decide
  · clear hOn
    revert rs hm hio ios pi ml ip ps io1 pst iost
    set_option maxRecDepth 10000 in decide
  · simp [SwitchState.onQuery] at hOn
  · simp [SwitchState.onQuery] at hOn

/-- Witness for C1 (amended): a concrete Off instance whose
`puppet.start()` fails — the call resolves, emits `error`, stops the
puppet; and a concrete Off instance with no failures — no `error`,
`start` emitted. -/
theorem c1_start_witness :
    startResolves ⟨SwitchState.off, false, false, false, false, false, false⟩
      ⟨false, false, true, false, false, false⟩ = true
    ∧ LAct.emitError ∈ startTrace ⟨SwitchState.off, false, false, false, false, false, false⟩
        ⟨false, false, true, false, false, false⟩
    ∧ LAct.emitStart ∈ startTrace ⟨SwitchState.off, false, false, false, false, false, false⟩
        ⟨false, false, false, false, false, false⟩ :=
  ⟨(c1_start_never_rejects ⟨SwitchState.off, false, false, false, false, false, false⟩
      ⟨false, false, true, false, false, false⟩ rfl rfl).1,
   ((c1_start_never_rejects ⟨SwitchState.off, false, false, false, false, false, false⟩
      ⟨false, false, true, false, false, false⟩ rfl rfl).2.1 rfl).1,
   ((c1_start_never_rejects ⟨SwitchState.off, false, false, false, false, false, false⟩
      ⟨false, false, false, false, false, false⟩ rfl rfl).2.2 rfl).2⟩

/-- C5: calling `start()` while the state is already On or turning On
returns immediately after awaiting the in-flight transition
(`state.ready('on')`) — nothing is re-initialized: the call performs no
memory, puppet, or io work and leaves the instance untouched.  And a first
`start()` from Off with no failures does reach the On state and emits
`start`, which is what settles the transition both calls then resolve on. -/
theorem c5_reentrant_start_no_reinit :
    (∀ (w : WechatyLife) (env : StartEnv), w.state.onQuery = true →
        startFn w env = .ok (w, [LAct.waitStateReadyOn]))
    ∧ (∀ (w : WechatyLife) (env : StartEnv),
        w.state.onQuery = false → w.lifeTimer = false → startTryFails w env = false →
        (startState w env).state = SwitchState.on
        ∧ LAct.emitStart ∈ startTrace w env) := by
  constructor
  · intro w env h
    unfold startFn
    rw [if_pos h]
  · intro w env hOn hTimer hTry
    obtain ⟨st, rs, lt, hm, hio, ios, pi⟩ := w
    obtain ⟨ml, ip, ps, io1, pst, iost⟩ := env
    simp only at hTimer
    subst hTimer
    cases st
    · clear hOn
      revert hTry
      revert rs hm hio ios pi ml ip ps io1 pst iost
      set_option maxRecDepth 10000 in decide
    · clear hOn
      revert hTry
      revert rs hm hio ios pi ml ip ps io1 pst iost
      set_option maxRecDepth 10000 in decide
    · simp [SwitchState.onQuery] at hOn
    · simp [SwitchState.onQuery] at hOn

/-- Witness for C5: a re-entrant `start()` on a turning-On instance only
waits; a first `start()` from Off ends On. -/
theorem c5_reentrant_witness :
    startFn ⟨SwitchState.pendingOn, false, false, true, false, false, true⟩
      ⟨false, false, false, false, false, false⟩
      = .ok (⟨SwitchState.pendingOn, false, false, true, false, false, true⟩, [LAct.waitStateReadyOn])
    ∧ (startState ⟨SwitchState.off, true, false, true, false, false, false⟩
        ⟨false, false, false, false, false, false⟩).state = SwitchState.on :=
  ⟨c5_reentrant_start_no_reinit.1 ⟨SwitchState.pendingOn, false, false, true, false, false, true⟩
      ⟨false, false, false, false, false, false⟩ rfl,
   (c5_reentrant_start_no_reinit.2 ⟨SwitchState.off, true, false, true, false, false, false⟩
      ⟨false, false, false, false, false, false⟩ rfl rfl rfl).1⟩

end Wechaty
